import Mathlib

/-!
Verification of the PCA9685 16-channel PWM/servo driver
(`Adafruit_PWMServoDriver.cpp`).

The driver is shallowly embedded: machine integers become `Nat` with
explicit `% 256` / `% 65536` where width matters, the C `float`/`double`
arithmetic of the prescale and microsecond computations is modelled over
`ℚ` (exact at all inputs considered here; the C truncating casts to
unsigned types, applied to the relevant non-negative in-range values,
coincide with `Int.floor` composed with `Int.toNat`), and the I2C bus is
modelled as a register file together with a log of single-byte register
writes.  Bus faults are injected through explicit boolean oracle
parameters on the operations whose source discards or branches on
transport success.
-/

namespace PCA9685

/-- Modelled from the spec: the register addresses and mode-bit masks live
in the header `Adafruit_PWMServoDriver.h`, which is not among the provided
sources.  The spec fixes the register map (MODE1, MODE2, PRESCALE,
LED0_ON_L, ALLLED_ON_L) and the MODE1 bit roles; the numeric values are
the PCA9685 datasheet constants used by this library. MODE1 register address. -/
def PCA9685_MODE1 : Nat := 0x00

/-- MODE2 register address (header constant, see `PCA9685_MODE1`). -/
def PCA9685_MODE2 : Nat := 0x01

/-- First per-channel tick register (header constant). -/
def PCA9685_LED0_ON_L : Nat := 0x06

/-- Broadcast all-channel tick register (header constant). -/
def PCA9685_ALLLED_ON_L : Nat := 0xFA

/-- Prescale register address (header constant). -/
def PCA9685_PRESCALE : Nat := 0xFE

/-- MODE1 restart bit (header constant). -/
def MODE1_RESTART : Nat := 0x80

/-- MODE1 external-clock bit (header constant). -/
def MODE1_EXTCLK : Nat := 0x40

/-- MODE1 auto-increment bit (header constant). -/
def MODE1_AI : Nat := 0x20

/-- MODE1 sleep bit (header constant). -/
def MODE1_SLEEP : Nat := 0x10

/-- Modelled from the spec: minimum prescale value, a header constant; the
spec requires the valid range to exclude 0 by construction of
PRESCALE_MIN; 3 is the datasheet minimum used by this library. -/
def PCA9685_PRESCALE_MIN : Nat := 3

/-- Modelled from the spec: maximum prescale value (header constant). -/
def PCA9685_PRESCALE_MAX : Nat := 255

/-- Modelled from the spec: the nominal internal oscillator frequency,
25,000,000 Hz (header constant `FREQUENCY_OSCILLATOR`). -/
def FREQUENCY_OSCILLATOR : Nat := 25000000

/-- `Adafruit_PWMServoDriver::calcPrescale` (lines 437-446):
`prescaleval = ((_oscillator_freq / (freq * 4096.0)) + 0.5) - 1`, clamp to
`[PCA9685_PRESCALE_MIN, PCA9685_PRESCALE_MAX]` by the two sequential `if`
statements, then cast to `uint8_t`.  The float arithmetic is modelled over
`ℚ`; the truncating `uint8_t` cast of the clamped value (which lies in
`[3, 255]`, hence is non-negative) is `Int.floor` followed by
`Int.toNat`. -/
def calcPrescale (osc : Nat) (freq : ℚ) : Nat :=
  let p0 : ℚ := ((osc : ℚ) / (freq * 4096) + 1 / 2) - 1
  let p1 : ℚ := if p0 < (PCA9685_PRESCALE_MIN : ℚ) then (PCA9685_PRESCALE_MIN : ℚ) else p0
  let p2 : ℚ := if p1 > (PCA9685_PRESCALE_MAX : ℚ) then (PCA9685_PRESCALE_MAX : ℚ) else p1
  (⌊p2⌋).toNat

/-- The closed form of `calcPrescale`: clamp `⌊p0⌋` into `[3, 255]` over
`ℤ` and convert to `Nat`. -/
lemma calcPrescale_eq (osc : Nat) (freq : ℚ) :
    calcPrescale osc freq =
      (min 255 (max 3 ⌊((osc : ℚ) / (freq * 4096) + 1 / 2) - 1⌋)).toNat := by
  unfold calcPrescale
  simp only [PCA9685_PRESCALE_MIN, PCA9685_PRESCALE_MAX]
  set p0 : ℚ := ((osc : ℚ) / (freq * 4096) + 1 / 2) - 1 with hp0
  push_cast
  split_ifs with h1 h2 h3
  · -- p0 < 3 and 3 > 255: impossible second branch
    norm_num at h2
  · -- p0 < 3, result is 3
    have hf : ⌊p0⌋ < 3 := by
      have := Int.floor_le p0
      have h3' : p0 < ((3 : ℤ) : ℚ) := by push_cast; exact h1
      exact Int.floor_lt.mpr h3'
    have : ⌊(3 : ℚ)⌋ = 3 := by norm_num
    rw [this]
    omega
  · -- 3 ≤ p0 and p0 > 255, result is 255
    have hf : (255 : ℤ) ≤ ⌊p0⌋ := by
      apply Int.le_floor.mpr
      push_cast
      linarith
    have : ⌊(255 : ℚ)⌋ = 255 := by norm_num
    rw [this]
    omega
  · -- 3 ≤ p0 ≤ 255, no clamping
    have hlo : (3 : ℤ) ≤ ⌊p0⌋ := by
      apply Int.le_floor.mpr
      push_cast
      linarith
    have hhi : ⌊p0⌋ ≤ 255 := by
      have : p0 ≤ ((255 : ℤ) : ℚ) := by push_cast; linarith
      have := Int.floor_le_floor this
      simpa using this
    omega

/-- The prescale clamp always lands in `[3, 255]`, whatever the oscillator
assumption and the frequency. -/
lemma calcPrescale_bounds (osc : Nat) (freq : ℚ) :
    3 ≤ calcPrescale osc freq ∧ calcPrescale osc freq ≤ 255 := by
  rw [calcPrescale_eq]
  constructor
  · have h1 : (3 : ℤ) ≤ min 255 (max 3 ⌊((osc : ℚ) / (freq * 4096) + 1 / 2) - 1⌋) := by
      apply le_min (by norm_num) (le_max_left _ _)
    omega
  · have h2 : min 255 (max 3 ⌊((osc : ℚ) / (freq * 4096) + 1 / 2) - 1⌋) ≤ 255 :=
      min_le_left _ _
    omega

/-- Stated from the words of the spec, for comparison with
`calcPrescale`: `prescale = round(oscillatorFreq / (freqHz * 4096)) - 1`,
where rounding adds 0.5 before truncation, the `-1` is applied after
rounding, and the result is clamped into
`[PCA9685_PRESCALE_MIN, PCA9685_PRESCALE_MAX]`. -/
def calcPrescaleSpec (osc : Nat) (freq : ℚ) : Nat :=
  let rounded : ℤ := ⌊(osc : ℚ) / (freq * 4096) + 1 / 2⌋
  (min (PCA9685_PRESCALE_MAX : ℤ) (max (PCA9685_PRESCALE_MIN : ℤ) (rounded - 1))).toNat

/-- The controller-side state of `Adafruit_PWMServoDriver`: the member
variables `_prescale` (a `uint8_t`, the last-read prescale) and
`_oscillator_freq` (a `uint32_t`). -/
structure Controller where
  prescale : Nat
  oscillator : Nat

/-- The chip side of the model: the device register file, plus a ghost
log of the single-byte register writes issued through `write8`, in
order, used to state the write-sequencing invariant. -/
structure Chip where
  regs : Nat → Nat
  log : List (Nat × Nat)

/-- `Adafruit_PWMServoDriver::write8` (lines 432-435): a single-byte
register write.  The stored and logged value is the `uint8_t` payload. -/
def write8 (chip : Chip) (addr d : Nat) : Chip :=
  { regs := fun a => if a = addr then d % 256 else chip.regs a,
    log := chip.log ++ [(addr, d % 256)] }

/-- `Adafruit_PWMServoDriver::read8` (lines 423-430), successful case:
returns the byte stored at `addr`. -/
def read8 (chip : Chip) (addr : Nat) : Nat :=
  chip.regs addr % 256

/-- `Adafruit_PWMServoDriver::readPrescale` (lines 213-221): returns the
read byte when the transport read succeeds (`readOk`), and the sentinel
`0` when it fails. -/
def readPrescale (chip : Chip) (readOk : Bool) : Nat :=
  if readOk then read8 chip PCA9685_PRESCALE else 0

/-- `Adafruit_PWMServoDriver::reset` (lines 95-98): write the restart bit
to MODE1 (the settling delay has no register-level effect). -/
def reset (chip : Chip) : Chip :=
  write8 chip PCA9685_MODE1 MODE1_RESTART

/-- `Adafruit_PWMServoDriver::setPWMFreq` (lines 149-183): clamp the
frequency to `[1, 3500]`, compute the prescale, then the sleep /
write-prescale / restore / restart+auto-increment write sequence, and
finally re-read the prescale into `_prescale`.  `readOk` is the success
of the final `readPrescale` transport read; `0x7F` is the 8-bit
complement `~MODE1_RESTART`. -/
def setPWMFreq (ctrl : Controller) (chip : Chip) (freq : ℚ) (readOk : Bool) :
    Controller × Chip :=
  let freq := if freq < 1 then 1 else freq
  let freq := if freq > 3500 then 3500 else freq
  let prescale := calcPrescale ctrl.oscillator freq
  let oldmode := read8 chip PCA9685_MODE1
  let newmode := (oldmode &&& 0x7F) ||| MODE1_SLEEP
  let chip := write8 chip PCA9685_MODE1 newmode
  let chip := write8 chip PCA9685_PRESCALE prescale
  let chip := write8 chip PCA9685_MODE1 oldmode
  let chip := write8 chip PCA9685_MODE1 (oldmode ||| MODE1_RESTART ||| MODE1_AI)
  ({ ctrl with prescale := readPrescale chip readOk }, chip)

/-- `Adafruit_PWMServoDriver::setExtClk` (lines 124-143): sleep, set the
external-clock bit in a second MODE1 write, write the caller-supplied
prescale literally, then clear sleep and set restart and auto-increment;
`0x7F` and `0xEF` are the 8-bit complements `~MODE1_RESTART` and
`~MODE1_SLEEP`. -/
def setExtClk (chip : Chip) (prescaleArg : Nat) : Chip :=
  let oldmode := read8 chip PCA9685_MODE1
  let newmode := (oldmode &&& 0x7F) ||| MODE1_SLEEP
  let chip := write8 chip PCA9685_MODE1 newmode
  let newmode := newmode ||| MODE1_EXTCLK
  let chip := write8 chip PCA9685_MODE1 newmode
  let chip := write8 chip PCA9685_PRESCALE prescaleArg
  let chip := write8 chip PCA9685_MODE1
    ((newmode &&& 0xEF) ||| MODE1_RESTART ||| MODE1_AI)
  chip

/-- `Adafruit_PWMServoDriver::begin` (lines 66-90): fail when the bus
handle cannot be acquired (`busOk = false`); otherwise reset, route through
`setExtClk` when a non-zero prescale argument is supplied and through
`setPWMFreq 1000` otherwise, record the nominal oscillator frequency, then
read back the prescale (`finalReadOk` is that transport read outcome) and
fail exactly when the read-back value is the sentinel `0`.  `freqReadOk`
is the outcome of the transport read inside `setPWMFreq`. -/
def begin (ctrl : Controller) (chip : Chip) (prescaleArg : Nat)
    (busOk freqReadOk finalReadOk : Bool) : Controller × Chip × Bool :=
  if !busOk then (ctrl, chip, false)
  else
    let chip0 := reset chip
    let st :=
      if prescaleArg ≠ 0 then (ctrl, setExtClk chip0 prescaleArg)
      else setPWMFreq ctrl chip0 1000 freqReadOk
    let ctrl := { st.1 with oscillator := FREQUENCY_OSCILLATOR }
    let p := readPrescale st.2 finalReadOk
    let ctrl := { ctrl with prescale := p }
    if p = 0 then (ctrl, st.2, false) else (ctrl, st.2, true)

/-- `Adafruit_PWMServoDriver::beginBarebones` (lines 357-377): the result
of `i2c_dev->begin(false)` (`busOk`) is discarded; the MODE1 read uses
`.val` even when the transport read failed (`modeReadOk = false`, in which
case the buffer holds an unspecified byte `failVal`); sleep is cleared and
auto-increment set, written back only when different; the function returns
`true` unconditionally. -/
def beginBarebones (ctrl : Controller) (chip : Chip) (busOk modeReadOk : Bool)
    (failVal : Nat) : Controller × Chip × Bool :=
  let old_mode := if modeReadOk then read8 chip PCA9685_MODE1 else failVal % 256
  let new_mode := (old_mode &&& 0xEF) ||| MODE1_AI
  let chip := if new_mode ≠ old_mode then write8 chip PCA9685_MODE1 new_mode else chip
  let ctrl := { ctrl with oscillator := FREQUENCY_OSCILLATOR }
  (ctrl, chip, true)

/-- `Adafruit_PWMServoDriver::isFreqSet` (lines 394-401): compare the
prescale the frequency would produce with the stored `_prescale`. -/
def isFreqSet (ctrl : Controller) (freq : ℚ) : Bool :=
  calcPrescale ctrl.oscillator freq == ctrl.prescale

/-- `Adafruit_PWMServoDriver::setPin` (lines 275-304), as the `(on, off)`
argument pair it passes to `setPWM`: clamp the value to `[0, 4095]`, then
the fully-on / fully-off sentinel dispatch with the inverted variant. -/
def setPin (val : Nat) (invert : Bool) : Nat × Nat :=
  let val := min val 4095
  if invert then
    if val = 0 then (4096, 0)
    else if val = 4095 then (0, 4096)
    else (0, 4095 - val)
  else
    if val = 4095 then (4096, 0)
    else if val = 0 then (0, 4096)
    else (0, val)

/-- `Adafruit_PWMServoDriver::writeMicroseconds` (lines 313-351): the
member `_prescale` is incremented in place (`_prescale += 1`, a `uint8_t`
wrap), the tick duration `1000000 * _prescale / _oscillator_freq` is
computed in double arithmetic (modelled over `ℚ`), the pulse is divided by
it, and `setPWM(num, 0, pulse)` is called, the `uint16_t` cast of the
non-negative double `pulse` truncating toward zero (`Int.floor` then
`Int.toNat`).  The result is the updated controller together with the
`(on, off)` pair passed to `setPWM`. -/
def writeMicroseconds (ctrl : Controller) (us : Nat) :
    Controller × (Nat × Nat) :=
  let pulse : ℚ := (us : ℚ)
  let pulselength : ℚ := 1000000
  let prescale := (ctrl.prescale + 1) % 256
  let pulselength := pulselength * (prescale : ℚ)
  let pulselength := pulselength / (ctrl.oscillator : ℚ)
  let pulse := pulse / pulselength
  ({ ctrl with prescale := prescale }, (0, (⌊pulse⌋).toNat))

/-- The sleep bit of a MODE1 byte value. -/
def sleepBitSet (v : Nat) : Bool :=
  v &&& MODE1_SLEEP != 0

/-- The prescale-write sequencing invariant over a write log: every write
to the PRESCALE register happens while the most recent preceding MODE1
write in the log set the sleep bit (`sleepSet` carries that state; it
starts `false`: a PRESCALE write with no preceding MODE1 write is
unsafe). -/
def prescaleWritesSafe : List (Nat × Nat) → Bool → Bool
  | [], _ => true
  | (addr, v) :: rest, sleepSet =>
    if addr = PCA9685_PRESCALE then sleepSet && prescaleWritesSafe rest sleepSet
    else if addr = PCA9685_MODE1 then prescaleWritesSafe rest (sleepBitSet v)
    else prescaleWritesSafe rest sleepSet

/-- Floor evaluation used by the concrete prescale scenario. -/
lemma floor_scenario_50 : ⌊(25000000 : ℚ) / (50 * 4096) + 1 / 2 - 1⌋ = 121 := by
  rw [Int.floor_eq_iff]
  norm_num

/-- The concrete scenario of the spec: at the nominal 25 MHz oscillator,
`calcPrescale 50` is 121. -/
lemma calcPrescale_50 : calcPrescale 25000000 50 = 121 := by
  rw [calcPrescale_eq]
  have hc : ((25000000 : Nat) : ℚ) = 25000000 := by norm_num
  rw [hc, floor_scenario_50]
  norm_num
  decide

/-- C1: for every frequency f > 0 and oscillator assumption osc,
`calcPrescale` equals `round(osc / (f * 4096)) - 1` — rounding by adding
0.5 before truncation, with the -1 applied after rounding — clamped into
`[PCA9685_PRESCALE_MIN, PCA9685_PRESCALE_MAX]`; in particular, with
osc = 25,000,000 Hz, `calcPrescale 50 = 121`. -/
theorem C1_calcPrescale_datasheet_formula :
    (∀ (osc : Nat) (freq : ℚ), 0 < freq →
      calcPrescale osc freq = calcPrescaleSpec osc freq) ∧
    calcPrescale 25000000 50 = 121 := by
  constructor
  · intro osc freq _
    rw [calcPrescale_eq]
    unfold calcPrescaleSpec
    simp only [PCA9685_PRESCALE_MIN, PCA9685_PRESCALE_MAX]
    have h1 : ((osc : ℚ) / (freq * 4096) + 1 / 2) - 1
        = ((osc : ℚ) / (freq * 4096) + 1 / 2) - ((1 : ℤ) : ℚ) := by norm_num
    rw [h1, Int.floor_sub_int]
    norm_num
  · exact calcPrescale_50

/-- C1 witness: the universally quantified part instantiated at the
scenario input osc = 25,000,000 Hz, f = 50 Hz. -/
theorem C1_calcPrescale_datasheet_formula_witness :
    (0 : ℚ) < 50 ∧ calcPrescale 25000000 50 = calcPrescaleSpec 25000000 50 :=
  ⟨by norm_num, C1_calcPrescale_datasheet_formula.1 25000000 50 (by norm_num)⟩

/-- C6: for every frequency in [1, 3500] and every oscillator assumption,
the computed prescale lies within
`[PCA9685_PRESCALE_MIN, PCA9685_PRESCALE_MAX]`. -/
theorem C6_calcPrescale_in_range :
    ∀ (osc : Nat) (freq : ℚ), 1 ≤ freq → freq ≤ 3500 →
      PCA9685_PRESCALE_MIN ≤ calcPrescale osc freq ∧
      calcPrescale osc freq ≤ PCA9685_PRESCALE_MAX := by
  intro osc freq _ _
  simpa [PCA9685_PRESCALE_MIN, PCA9685_PRESCALE_MAX] using calcPrescale_bounds osc freq

/-- C6 witness: the range invariant at osc = 25,000,000 Hz, f = 50 Hz. -/
theorem C6_calcPrescale_in_range_witness :
    (1 : ℚ) ≤ 50 ∧ (50 : ℚ) ≤ 3500 ∧
      (PCA9685_PRESCALE_MIN ≤ calcPrescale 25000000 50 ∧
       calcPrescale 25000000 50 ≤ PCA9685_PRESCALE_MAX) :=
  ⟨by norm_num, by norm_num,
    C6_calcPrescale_in_range 25000000 50 (by norm_num) (by norm_num)⟩

/-- C7: for a fixed oscillator frequency, `calcPrescale` is monotonically
non-increasing in its (positive) frequency argument. -/
theorem C7_calcPrescale_antitone :
    ∀ (osc : Nat) (f1 f2 : ℚ), 0 < f1 → f1 ≤ f2 →
      calcPrescale osc f2 ≤ calcPrescale osc f1 := by
  intro osc f1 f2 h1 h12
  rw [calcPrescale_eq, calcPrescale_eq]
  apply Int.toNat_le_toNat
  apply min_le_min (le_refl _)
  apply max_le_max (le_refl _)
  have hdiv : (osc : ℚ) / (f2 * 4096) ≤ (osc : ℚ) / (f1 * 4096) := by
    apply div_le_div_of_nonneg_left (by positivity) (by positivity)
    linarith
  have := Int.floor_le_floor
    (show (osc : ℚ) / (f2 * 4096) + 1 / 2 - 1 ≤ (osc : ℚ) / (f1 * 4096) + 1 / 2 - 1 by
      linarith)
  exact this

/-- C7 witness: monotonicity instantiated at f1 = 50 Hz, f2 = 60 Hz with
the nominal oscillator. -/
theorem C7_calcPrescale_antitone_witness :
    (0 : ℚ) < 50 ∧ (50 : ℚ) ≤ 60 ∧
      calcPrescale 25000000 60 ≤ calcPrescale 25000000 50 :=
  ⟨by norm_num, by norm_num,
    C7_calcPrescale_antitone 25000000 50 60 (by norm_num) (by norm_num)⟩

/-- C4: for every value v clamped to [0, 4095], `setPin` maps exactly as:
non-inverted v = 4095 and inverted v = 0 both produce the fully-on raw
write (4096, 0); non-inverted v = 0 and inverted v = 4095 both produce
the fully-off raw write (0, 4096); otherwise non-inverted produces
(0, v) and inverted produces (0, 4095 - v). -/
theorem C4_setPin_mapping :
    ∀ (val : Nat), val ≤ 4095 →
      (setPin 4095 false = (4096, 0) ∧ setPin 0 true = (4096, 0)) ∧
      (setPin 0 false = (0, 4096) ∧ setPin 4095 true = (0, 4096)) ∧
      (val ≠ 4095 → val ≠ 0 →
        setPin val false = (0, val) ∧ setPin val true = (0, 4095 - val)) := by
  intro val hval
  refine ⟨⟨by decide, by decide⟩, ⟨by decide, by decide⟩, ?_⟩
  intro h4095 h0
  have hmin : min val 4095 = val := Nat.min_eq_left hval
  constructor <;> simp [setPin, hmin, h0, h4095]

/-- C4 witness: the mapping instantiated at the interior value 2000. -/
theorem C4_setPin_mapping_witness :
    (2000 : Nat) ≤ 4095 ∧
      ((setPin 4095 false = (4096, 0) ∧ setPin 0 true = (4096, 0)) ∧
       (setPin 0 false = (0, 4096) ∧ setPin 4095 true = (0, 4096)) ∧
       ((2000 : Nat) ≠ 4095 → (2000 : Nat) ≠ 0 →
         setPin 2000 false = (0, 2000) ∧ setPin 2000 true = (0, 4095 - 2000))) :=
  ⟨by decide, C4_setPin_mapping 2000 (by decide)⟩

/-- The general truncation form of `writeMicroseconds`: the off-tick is
`us / tickDuration` truncated toward zero, where `tickDuration` is
`1000000 * (prescale + 1) / oscillatorFreq`. -/
lemma writeMicroseconds_eq (ctrl : Controller) (us : Nat)
    (h : ctrl.prescale + 1 < 256) :
    (writeMicroseconds ctrl us).2 =
      (0, (⌊(us : ℚ) /
        ((1000000 * ((ctrl.prescale : ℚ) + 1)) / (ctrl.oscillator : ℚ))⌋).toNat) := by
  unfold writeMicroseconds
  rw [Nat.mod_eq_of_lt h]
  push_cast
  rfl

/-- C2 counterexample: at stored prescale 121 and oscillator 25,000,000,
`writeMicroseconds 1502` issues the raw write (0, 307) — the code
truncates 1502 / 4.88 = 307.78 toward zero — while the rounding the claim
prescribes yields 308, so the raw write is not (0, round(us /
tickDuration)). -/
theorem C2_writeMicroseconds_round_counterexample :
    (writeMicroseconds ⟨121, 25000000⟩ 1502).2 ≠
      (0, (round ((1502 : ℚ) / (1000000 * (121 + 1) / 25000000))).toNat) := by
  have h1 : (writeMicroseconds ⟨121, 25000000⟩ 1502).2 = (0, 307) := by
    rw [writeMicroseconds_eq ⟨121, 25000000⟩ 1502 (by norm_num)]
    norm_num
    decide
  have h2 : round ((1502 : ℚ) / (1000000 * (121 + 1) / 25000000)) = 308 := by
    rw [round_eq, Int.floor_eq_iff]
    norm_num
  rw [h1, h2]
  decide

/-- C2 (amended): `writeMicroseconds` computes
`tickDuration = 1000000 * (prescale + 1) / oscillatorFreq` microseconds
per tick and issues the raw write `(0, ticks)` with
`ticks = us / tickDuration` truncated toward zero (not rounded to
nearest); in particular at prescale 121 and oscillator 25,000,000 Hz,
us = 1500 yields the raw write (0, 307). -/
theorem C2_writeMicroseconds_truncated_ticks :
    (∀ (ctrl : Controller) (us : Nat), ctrl.prescale + 1 < 256 →
      (writeMicroseconds ctrl us).2 =
        (0, (⌊(us : ℚ) /
          ((1000000 * ((ctrl.prescale : ℚ) + 1)) / (ctrl.oscillator : ℚ))⌋).toNat)) ∧
    (writeMicroseconds ⟨121, 25000000⟩ 1500).2 = (0, 307) := by
  constructor
  · exact writeMicroseconds_eq
  · rw [writeMicroseconds_eq ⟨121, 25000000⟩ 1500 (by norm_num)]
    norm_num
    decide

/-- C2 witness: the truncation form instantiated at prescale 121,
oscillator 25,000,000 Hz, us = 1500. -/
theorem C2_writeMicroseconds_truncated_ticks_witness :
    (121 : Nat) + 1 < 256 ∧
      (writeMicroseconds ⟨121, 25000000⟩ 1500).2 =
        (0, (⌊(1500 : ℚ) /
          ((1000000 * ((121 : ℚ) + 1)) / (25000000 : ℚ))⌋).toNat) :=
  ⟨by decide,
    C2_writeMicroseconds_truncated_ticks.1 ⟨121, 25000000⟩ 1500 (by decide)⟩

/-- C3: every call to `writeMicroseconds` increments the stored
`_prescale` member in place (as a `uint8_t`, so modulo 256), so the
stored prescale never stays unchanged across the call; the oscillator
member is untouched. -/
theorem C3_writeMicroseconds_mutates_prescale :
    ∀ (ctrl : Controller) (us : Nat), ctrl.prescale < 256 →
      (writeMicroseconds ctrl us).1.prescale = (ctrl.prescale + 1) % 256 ∧
      (writeMicroseconds ctrl us).1.prescale ≠ ctrl.prescale ∧
      (writeMicroseconds ctrl us).1.oscillator = ctrl.oscillator := by
  intro ctrl us h
  refine ⟨rfl, ?_, rfl⟩
  show (ctrl.prescale + 1) % 256 ≠ ctrl.prescale
  omega

/-- C3 witness: the frame effect at stored prescale 121 and 1500 µs. -/
theorem C3_writeMicroseconds_mutates_prescale_witness :
    (121 : Nat) < 256 ∧
      ((writeMicroseconds ⟨121, 25000000⟩ 1500).1.prescale = (121 + 1) % 256 ∧
       (writeMicroseconds ⟨121, 25000000⟩ 1500).1.prescale ≠ 121 ∧
       (writeMicroseconds ⟨121, 25000000⟩ 1500).1.oscillator = 25000000) :=
  ⟨by decide, C3_writeMicroseconds_mutates_prescale ⟨121, 25000000⟩ 1500 (by decide)⟩

set_option maxRecDepth 4096 in
/-- The MODE1 byte written first by `setPWMFreq` — old mode with restart
cleared and sleep set — always has the sleep bit set. -/
lemma sleepBit_newmode1 :
    ∀ m : Nat, m < 256 → sleepBitSet (((m &&& 127) ||| 16) % 256) = true := by
  decide

set_option maxRecDepth 4096 in
/-- The MODE1 byte `setExtClk` writes immediately before the prescale —
sleep plus the external-clock bit — always has the sleep bit set. -/
lemma sleepBit_newmode2 :
    ∀ m : Nat, m < 256 → sleepBitSet ((((m &&& 127) ||| 16) ||| 64) % 256) = true := by
  decide

/-- C5: in the register-write sequences produced by `setPWMFreq` and by
`setExtClk` — the only operations that write the PRESCALE register —
every PRESCALE write occurs while the most recent preceding MODE1 write
in the trace set the sleep bit. -/
theorem C5_prescale_written_only_while_asleep :
    ∀ (ctrl : Controller) (chip : Chip) (freq : ℚ) (readOk : Bool) (pArg : Nat),
      chip.log = [] →
      prescaleWritesSafe (setPWMFreq ctrl chip freq readOk).2.log false = true ∧
      prescaleWritesSafe (setExtClk chip pArg).log false = true := by
  intro ctrl chip freq readOk pArg hlog
  have hm : chip.regs 0 % 256 < 256 := Nat.mod_lt _ (by norm_num)
  constructor
  · simp [setPWMFreq, write8, read8, hlog, prescaleWritesSafe,
      PCA9685_MODE1, PCA9685_PRESCALE, MODE1_SLEEP]
    exact sleepBit_newmode1 _ hm
  · simp [setExtClk, write8, read8, hlog, prescaleWritesSafe,
      PCA9685_MODE1, PCA9685_PRESCALE, MODE1_SLEEP, MODE1_EXTCLK]
    exact sleepBit_newmode2 _ hm

/-- C5 witness: the invariant on the traces produced from a zeroed chip
at 50 Hz and at external prescale 121. -/
theorem C5_prescale_written_only_while_asleep_witness :
    prescaleWritesSafe
        (setPWMFreq ⟨0, 25000000⟩ ⟨fun _ => 0, []⟩ 50 true).2.log false = true ∧
      prescaleWritesSafe (setExtClk ⟨fun _ => 0, []⟩ 121).log false = true :=
  C5_prescale_written_only_while_asleep ⟨0, 25000000⟩ ⟨fun _ => 0, []⟩ 50 true 121 rfl

/-- C8: `isFreqSet f` returns true iff `calcPrescale f` equals the stored
last-read prescale; consequently, immediately after `setPWMFreq f` whose
final prescale re-read succeeded (so it returned the value that was
written), `isFreqSet f` returns true, for f in the valid range
[1, 3500] where the computed prescale is stable under the frequency
clamp. -/
theorem C8_isFreqSet_iff_and_idempotent :
    (∀ (ctrl : Controller) (freq : ℚ),
      isFreqSet ctrl freq = (calcPrescale ctrl.oscillator freq == ctrl.prescale)) ∧
    (∀ (ctrl : Controller) (chip : Chip) (freq : ℚ), 1 ≤ freq → freq ≤ 3500 →
      isFreqSet (setPWMFreq ctrl chip freq true).1 freq = true) := by
  constructor
  · intro ctrl freq
    rfl
  · intro ctrl chip freq h1 h2
    have hle : calcPrescale ctrl.oscillator freq ≤ 255 := (calcPrescale_bounds _ _).2
    have hlt : calcPrescale ctrl.oscillator freq < 256 := by omega
    simp [setPWMFreq, isFreqSet, readPrescale, read8, write8,
      PCA9685_MODE1, PCA9685_PRESCALE, not_lt.mpr h1, not_lt.mpr h2,
      Nat.mod_eq_of_lt hlt]

/-- C8 witness: after programming 50 Hz on a zeroed chip with a
successful re-read, `isFreqSet 50` holds. -/
theorem C8_isFreqSet_iff_and_idempotent_witness :
    (1 : ℚ) ≤ 50 ∧ (50 : ℚ) ≤ 3500 ∧
      isFreqSet (setPWMFreq ⟨0, 25000000⟩ ⟨fun _ => 0, []⟩ 50 true).1 50 = true :=
  ⟨by norm_num, by norm_num,
    C8_isFreqSet_iff_and_idempotent.2 ⟨0, 25000000⟩ ⟨fun _ => 0, []⟩ 50
      (by norm_num) (by norm_num)⟩

/-- C9: `readPrescale` returns the sentinel 0 on a failed bus read, and
`begin` returns false if and only if the bus acquisition fails or the
post-initialization prescale read-back (the prescale it stores) is 0. -/
theorem C9_begin_failure_iff_zero_prescale :
    (∀ chip : Chip, readPrescale chip false = 0) ∧
    (∀ (ctrl : Controller) (chip : Chip) (pArg : Nat) (busOk fro frk : Bool),
      ((begin ctrl chip pArg busOk fro frk).2.2 = false ↔
        (busOk = false ∨ (begin ctrl chip pArg busOk fro frk).1.prescale = 0))) := by
  constructor
  · intro chip
    rfl
  · intro ctrl chip pArg busOk fro frk
    cases busOk
    · simp [begin]
    · simp only [begin, Bool.not_true, Bool.false_eq_true, if_false]
      split_ifs <;> simp_all

/-- C10: `beginBarebones` returns true for every outcome of the bus
transport: the bus acquisition result and the mode-register read outcome
are discarded, so a transport failure is never reported. -/
theorem C10_beginBarebones_always_true :
    ∀ (ctrl : Controller) (chip : Chip) (busOk modeReadOk : Bool) (failVal : Nat),
      (beginBarebones ctrl chip busOk modeReadOk failVal).2.2 = true :=
  fun _ _ _ _ _ => rfl

end PCA9685
